import Mathlib

/-
Shallow embedding of src/plex/player.py (mediaimporter.plex), the playback
state bridge between a local Kodi player and a Plex Media Server.

Modelling conventions:
  * Python instance attributes that may be missing before first assignment
    are modelled as an outer Option: none means the attribute was never
    assigned (reading it raises AttributeError), some v means the attribute
    holds the Python value v (itself an Option when the value can be None).
  * Python truthiness: None is falsy; an empty string is falsy; the integer
    0 is falsy; ordinary objects (providers, items, threads) are truthy.
  * Exceptions escaping a handler are recorded in the EventOut.err field;
    mutations performed before the raise are kept, as in Python.
  * Fractional player times (seconds) are rationals; int(x * 1000) is
    pyScaleMs, computed by truncating division on numerator/denominator.
  * Strings are ASCII here; str.isdigit / int(s) are modelled via
    pyStrToNat?.
-/

set_option autoImplicit false

namespace PlexPlayer

/-- Python exceptions that the embedded code can raise. -/
inductive PyErr where
  | attributeError
  | valueError
  | keyError
  | unboundLocal
  deriving DecidableEq, Repr

/-- Log severities used by the player (xbmc.LOGERROR / xbmc.LOGWARNING). -/
inductive LogLevel where
  | error
  | warning
  deriving DecidableEq, Repr

/-- Video metadata exposed by the host: the unique id stored under the Plex
protocol tag (empty string when absent, as Kodi returns) and the media type. -/
structure VideoInfoTag where
  uniqueIdPlex : String
  mediaType : String
  deriving DecidableEq, Repr

/-- An item of the imported catalog of a provider; getVideoInfoTag may be null. -/
structure ImportedItem where
  videoInfoTag : Option VideoInfoTag
  deriving DecidableEq, Repr

/-- A configured media provider together with the imported-item catalog the
host returns for it via xbmcmediaimport.getImportedItemsByProvider. -/
structure MediaProvider where
  identifier : String
  importedItems : List ImportedItem
  deriving DecidableEq, Repr

/-- Modelled from the spec: the handle returned by remote item resolution
(Api.getPlexItemDetails in plex/api.py, which is not under src/). Spec section 6:
given provider + numeric id + media class, resolution returns a handle with one
mutating operation, push timeline update. -/
structure RemoteItem where
  providerId : String
  itemId : Nat
  mediaType : String
  deriving DecidableEq, Repr

/-- One timeline update pushed to the remote item: updateTimeline(time,
state=..., duration=self._duration). The duration argument is the raw
attribute value, which has Optional type. -/
structure TimelineUpdate where
  time : Int
  state : String
  duration : Option Int
  deriving DecidableEq, Repr

/-- The _last_state dictionary: keys time and state, both initially None. -/
structure LastState where
  time : Option Int
  state : Option String
  deriving DecidableEq, Repr

/-- The mutable state of a Player object. providers is the _providers dict
(insertion ordered, keyed by provider identifier); every other field is an
instance attribute that exists only after its first assignment (outer
Option), holding a possibly-None Python value (inner Option). The
playbackMonitor value records the isAlive flag of the thread. -/
structure PlayerState where
  providers : List (String × MediaProvider)
  file : Option (Option String)
  item : Option (Option RemoteItem)
  itemId : Option (Option Nat)
  mediaProvider : Option (Option MediaProvider)
  duration : Option (Option Int)
  playbackMonitor : Option (Option Bool)
  lastState : Option LastState
  deriving DecidableEq, Repr

/-- Host-environment snapshot backing the xbmc.Player accessor calls made
while handling one event. -/
structure HostEnv where
  playingFile : String
  isPlayingVideo : Bool
  videoInfoTag : Option VideoInfoTag
  timeSec : ℚ
  totalTimeSec : ℚ
  deriving DecidableEq, Repr

/-- Observable outcome of one handler invocation: timeline pushes, log
entries, which providers had their catalog fetched, which providers had a
remote item resolved, whether a monitor thread was started, and the
exception (if any) that escaped. -/
structure EventOut where
  pushes : List TimelineUpdate
  logs : List LogLevel
  catalogQueries : List String
  resolutions : List String
  monitorStarted : Bool
  err : Option PyErr
  deriving DecidableEq, Repr

/-- Outcome with no observable effects. -/
def noOut : EventOut := ⟨[], [], [], [], false, none⟩

/-- Outcome of a handler that raised exception e with no prior effects. -/
def errOut (e : PyErr) : EventOut := ⟨[], [], [], [], false, some e⟩

/-- Outcome consisting of a single timeline push. -/
def pushOut (u : TimelineUpdate) : EventOut := ⟨[u], [], [], [], false, none⟩

/-- Sequencing of two handler outcomes (second ran after the first). -/
def combineOut (a b : EventOut) : EventOut :=
  ⟨a.pushes ++ b.pushes, a.logs ++ b.logs, a.catalogQueries ++ b.catalogQueries,
   a.resolutions ++ b.resolutions, a.monitorStarted || b.monitorStarted,
   match a.err with
   | some e => some e
   | none => b.err⟩

/-- Python truthiness of an optional string: None and the empty string are
falsy. -/
def falsyStr : Option String → Bool
  | none => true
  | some s => decide (s = "")

/-- Python truthiness of an optional integer: None and 0 are falsy. -/
def falsyInt : Option Int → Bool
  | none => true
  | some n => decide (n = 0)

/-- Python int(q * 1000) for a rational number of seconds q = num/den:
truncation toward zero, computed on the numerator and denominator (for
q = n/d in lowest terms, q * 1000 = (n * 1000)/d, and int() truncates
toward zero, which is Int.tdiv). -/
def pyScaleMs (q : ℚ) : Int := (q.num * 1000).tdiv q.den

/-- _getPlayingTime: int(self.getTime() * 1000), milliseconds. -/
def playingTimeMs (env : HostEnv) : Int := pyScaleMs env.timeSec

/-- Modelled from the spec: the PLEX_PLAYER_PLAYING constant of
plex/constants.py (not under src/); spec section 3 gives the state enum
as playing, paused, stopped (nonempty strings, hence truthy). -/
def PLEX_PLAYER_PLAYING : String := "playing"

/-- Modelled from the spec: the PLEX_PLAYER_PAUSED constant of
plex/constants.py (not under src/). -/
def PLEX_PLAYER_PAUSED : String := "paused"

/-- Modelled from the spec: the PLEX_PLAYER_STOPPED constant of
plex/constants.py (not under src/). -/
def PLEX_PLAYER_STOPPED : String := "stopped"

/-- _reset: assigns None to every session attribute and a fresh
time/state-None dictionary to _last_state. Providers are untouched. -/
def resetState (s : PlayerState) : PlayerState :=
  { s with
    file := some none
    item := some none
    itemId := some none
    mediaProvider := some none
    duration := some none
    playbackMonitor := some none
    lastState := some ⟨none, none⟩ }

/-- The state right after Player.__init__: only the provider dict (plus the
host monitor and the lock, which carry no data here) exists; no session
attribute has been assigned yet. -/
def initialState : PlayerState :=
  ⟨[], none, none, none, none, none, none, none⟩

/-- Ordered-dict lookup by key. -/
def dictLookup {α : Type} : List (String × α) → String → Option α
  | [], _ => none
  | (k2, v) :: rest, k => if k2 = k then some v else dictLookup rest k

/-- Ordered-dict assignment d[k] = v: overwrite in place, else append. -/
def dictSet {α : Type} : List (String × α) → String → α → List (String × α)
  | [], k, v => [(k, v)]
  | (k2, v2) :: rest, k, v =>
    if k2 = k then (k, v) :: rest else (k2, v2) :: dictSet rest k v

/-- Ordered-dict deletion del d[k]: none signals a KeyError. -/
def dictDel {α : Type} : List (String × α) → String → Option (List (String × α))
  | [], _ => none
  | (k2, v2) :: rest, k =>
    if k2 = k then some rest
    else (dictDel rest k).map (fun l => (k2, v2) :: l)

/-- AddProvider: raise ValueError on a falsy (None) argument, else register
the provider in the dict under its identifier. -/
def AddProvider (s : PlayerState) (mp : Option MediaProvider) :
    Except PyErr PlayerState :=
  match mp with
  | none => Except.error PyErr.valueError
  | some p =>
    Except.ok { s with providers := dictSet s.providers p.identifier p }

/-- RemoveProvider: raise ValueError on a falsy (None) argument; del raises
KeyError when the identifier is not a key of the dict. -/
def RemoveProvider (s : PlayerState) (mp : Option MediaProvider) :
    Except PyErr PlayerState :=
  match mp with
  | none => Except.error PyErr.valueError
  | some p =>
    match dictDel s.providers p.identifier with
    | none => Except.error PyErr.keyError
    | some ps => Except.ok { s with providers := ps }

/-- An ASCII decimal digit (the scope of str.isdigit modelled here). -/
def isAsciiDigit (c : Char) : Bool := 48 ≤ c.toNat && c.toNat ≤ 57

/-- str.isdigit combined with int(s): some n exactly when the string is
nonempty and all characters are decimal digits, in which case n is its
decimal value. -/
def pyStrToNat? (s : String) : Option Nat :=
  if !s.toList.isEmpty && s.toList.all isAsciiDigit then
    some (s.toList.foldl (fun acc c => acc * 10 + (c.toNat - 48)) 0)
  else none

/-- The list comprehension of _startPlayback: catalog items whose video info
tag is truthy and whose Plex unique id equals str(self._itemId). -/
def matchingItems (idNum : Nat) (mp : MediaProvider) : List ImportedItem :=
  mp.importedItems.filter (fun it =>
    match it.videoInfoTag with
    | none => false
    | some t => decide (t.uniqueIdPlex = toString idNum))

/-- The provider loop of _startPlayback: walk the registered providers in
order, fetching each catalog, until one has a non-empty match set. Returns
the identifiers of the providers whose catalog was fetched, and the selected
provider with its match count (none when every provider was scanned without
a match). -/
def scanProviders (idNum : Nat) : List MediaProvider →
    List String × Option (MediaProvider × Nat)
  | [] => ([], none)
  | mp :: rest =>
    let m := matchingItems idNum mp
    if m.isEmpty then
      let r := scanProviders idNum rest
      (mp.identifier :: r.1, r.2)
    else ([mp.identifier], some (mp, m.length))

/-- Modelled from the spec: remote item resolution
(Server + Api.getPlexItemDetails, neither under src/) keyed by the selected
provider, the parsed numeric id and the media class of the playing item. -/
def getPlexItemDetails (mp : MediaProvider) (idNum : Nat) (mt : String) :
    RemoteItem :=
  ⟨mp.identifier, idNum, mt⟩

/-- _startPlayback. Reads self._file (AttributeError if never assigned);
returns silently when the file, the video check, the metadata or the unique
id is falsy. A present but non-digit id takes the error-log branch, whose
format argument matchingItems[0] names a local variable that is only
assigned later in the function, so the branch raises UnboundLocalError.
Otherwise the id is parsed, the provider loop runs, and on a truthy
self._mediaProvider the remote item is resolved, the duration captured and
the monitor thread started if absent or dead; on a falsy one the session is
reset. -/
def startPlayback (env : HostEnv) (s : PlayerState) : PlayerState × EventOut :=
  match s.file with
  | none => (s, errOut PyErr.attributeError)
  | some fo =>
    if falsyStr fo then (s, noOut)
    else if !env.isPlayingVideo then (s, noOut)
    else
      match env.videoInfoTag with
      | none => (s, noOut)
      | some tag =>
        if tag.uniqueIdPlex = "" then (s, noOut)
        else
          match pyStrToNat? tag.uniqueIdPlex with
          | none => (s, errOut PyErr.unboundLocal)
          | some idNum =>
            let s1 := { s with itemId := some (some idNum) }
            let scan := scanProviders idNum (s1.providers.map Prod.snd)
            let s2 :=
              match scan.2 with
              | some (mp, _) => { s1 with mediaProvider := some (some mp) }
              | none => s1
            let warnLogs : List LogLevel :=
              match scan.2 with
              | some (_, cnt) => if 1 < cnt then [LogLevel.warning] else []
              | none => []
            match s2.mediaProvider with
            | none =>
              (s2, ⟨[], warnLogs, scan.1, [], false, some PyErr.attributeError⟩)
            | some none =>
              (resetState s2, ⟨[], warnLogs, scan.1, [], false, none⟩)
            | some (some mp) =>
              let s3 :=
                { s2 with
                  item := some (some (getPlexItemDetails mp idNum tag.mediaType))
                  duration := some (some (pyScaleMs env.totalTimeSec)) }
              match s3.playbackMonitor with
              | none =>
                (s3, ⟨[], warnLogs, scan.1, [mp.identifier], false,
                      some PyErr.attributeError⟩)
              | some pm =>
                match pm with
                | some true =>
                  (s3, ⟨[], warnLogs, scan.1, [mp.identifier], false, none⟩)
                | _ =>
                  ({ s3 with playbackMonitor := some (some true) },
                   ⟨[], warnLogs, scan.1, [mp.identifier], true, none⟩)

/-- _syncPlaybackState(state, time). Early return when both arguments are
falsy (note: the integer 0 is falsy); early return when self._item is falsy;
under the lock, store a truthy state and a non-None time into _last_state,
then push a timeline update exactly when the stored time is not None and the
stored state is truthy. -/
def syncPlaybackState (state : Option String) (time : Option Int)
    (s : PlayerState) : PlayerState × EventOut :=
  if falsyStr state && falsyInt time then (s, noOut)
  else
    match s.item with
    | none => (s, errOut PyErr.attributeError)
    | some none => (s, noOut)
    | some (some _) =>
      match s.lastState with
      | none => (s, errOut PyErr.attributeError)
      | some ls0 =>
        let ls1 := if falsyStr state then ls0 else { ls0 with state := state }
        let ls2 := if time.isSome then { ls1 with time := time } else ls1
        let s1 := { s with lastState := some ls2 }
        match ls2.time, ls2.state with
        | some t, some st =>
          if st = "" then (s1, noOut)
          else
            match s1.duration with
            | none => (s1, errOut PyErr.attributeError)
            | some d => (s1, pushOut ⟨t, st, d⟩)
        | some _, none => (s1, noOut)
        | none, _ => (s1, noOut)

/-- onAVStarted: _startPlayback, then (when it did not raise) an immediate
sync with state PLAYING and time 0. -/
def onAVStarted (env : HostEnv) (s : PlayerState) : PlayerState × EventOut :=
  let r := startPlayback env s
  match r.2.err with
  | some _ => r
  | none =>
    let r2 := syncPlaybackState (some PLEX_PLAYER_PLAYING) (some 0) r.1
    (r2.1, combineOut r.2 r2.2)

/-- onPlayBackStopped: sync state STOPPED (no time), then (when the sync did
not raise) the ended handler, which resets. -/
def onPlayBackStopped (s : PlayerState) : PlayerState × EventOut :=
  let r := syncPlaybackState (some PLEX_PLAYER_STOPPED) none s
  match r.2.err with
  | some _ => r
  | none => (resetState r.1, r.2)

/-- The lifecycle callbacks the host can deliver. -/
inductive PlayerEvent where
  | started
  | avStarted
  | seek
  | seekChapter
  | paused
  | resumed
  | stopped
  | ended
  deriving DecidableEq, Repr

/-- Dispatch of one host callback against a state, given the host snapshot
backing the accessor calls made while handling it. -/
def handleEvent (env : HostEnv) (e : PlayerEvent) (s : PlayerState) :
    PlayerState × EventOut :=
  match e with
  | PlayerEvent.started =>
    ({ resetState s with file := some (some env.playingFile) }, noOut)
  | PlayerEvent.avStarted => onAVStarted env s
  | PlayerEvent.seek =>
    syncPlaybackState none (some (playingTimeMs env)) s
  | PlayerEvent.seekChapter =>
    syncPlaybackState none (some (playingTimeMs env)) s
  | PlayerEvent.paused =>
    syncPlaybackState (some PLEX_PLAYER_PAUSED) (some (playingTimeMs env)) s
  | PlayerEvent.resumed =>
    syncPlaybackState (some PLEX_PLAYER_PLAYING) (some (playingTimeMs env)) s
  | PlayerEvent.stopped => onPlayBackStopped s
  | PlayerEvent.ended => (resetState s, noOut)

/-- Deliver a sequence of callbacks, threading the player state. -/
def runEvents (s : PlayerState) : List (HostEnv × PlayerEvent) → PlayerState
  | [] => s
  | (env, e) :: rest => runEvents (handleEvent env e s).1 rest

/-- One iteration of the _monitor_playback loop: the abort flag and the
self._item value observed at the loop head, the values observed after the
wait, and the playing time that would be synced. -/
structure MonitorIter where
  abortPre : Bool
  itemPre : Option RemoteItem
  abortPost : Bool
  itemPost : Option RemoteItem
  timeMs : Int
  deriving DecidableEq, Repr

/-- The sync calls (state argument, time argument) the monitor loop issues
over a trace of iterations: the loop head exits when aborted or the item is
None; after the wait it breaks on the same conditions; otherwise it syncs
the current time with no state argument and continues. -/
def monitorSyncCalls : List MonitorIter → List (Option String × Option Int)
  | [] => []
  | it :: rest =>
    if it.abortPre || it.itemPre.isNone then []
    else if it.abortPost || it.itemPost.isNone then []
    else (none, some it.timeMs) :: monitorSyncCalls rest

/-- The session is fully unset: every attribute exists and holds None, and
the last-state dictionary holds None for both keys (the state _reset
produces). -/
def sessionIdle (s : PlayerState) : Prop :=
  s.file = some none ∧ s.item = some none ∧ s.itemId = some none ∧
  s.mediaProvider = some none ∧ s.duration = some none ∧
  s.playbackMonitor = some none ∧ s.lastState = some ⟨none, none⟩

/-! Concrete fixtures used by witnesses and counterexamples. -/

/-- A resolved remote item for item 42 of provider plex1. -/
def r0 : RemoteItem := ⟨"plex1", 42, "movie"⟩

/-- Metadata of a playing video whose Plex unique id is 42. -/
def tag42 : VideoInfoTag := ⟨"42", "movie"⟩

/-- A catalog entry imported from Plex item 42. -/
def catItem42 : ImportedItem := ⟨some tag42⟩

/-- Provider plex1, whose catalog holds the item for id 42. -/
def mp1 : MediaProvider := ⟨"plex1", [catItem42]⟩

/-- Provider plex2, whose catalog also holds an item for id 42. -/
def mp2 : MediaProvider := ⟨"plex2", [catItem42]⟩

/-- A provider with an empty catalog. -/
def mpEmpty : MediaProvider := ⟨"plex9", []⟩

/-- Host snapshot: playing item 42, total duration 61.5 seconds. -/
def envA : HostEnv := ⟨"f.mkv", true, some tag42, 0, ⟨123, 2, by decide, by decide⟩⟩

/-- Host snapshot whose playing video has the non-numeric unique id abc. -/
def envBad : HostEnv := ⟨"f.mkv", true, some ⟨"abc", "movie"⟩, 0, 10⟩

/-- Host snapshot with elapsed time 0. -/
def env0 : HostEnv := ⟨"f.mkv", true, some tag42, 0, 10⟩

/-- Host snapshot with elapsed time 1 second. -/
def env1 : HostEnv := ⟨"f.mkv", true, some tag42, 1, 10⟩

/-- Session state right after onPlayBackStarted with provider plex1
registered: reset, with the playing file captured. -/
def sStarted : PlayerState :=
  { resetState initialState with
    providers := [("plex1", mp1)]
    file := some (some "f.mkv") }

/-- Like sStarted but with providers plex1 and plex2, in that order. -/
def sTwo : PlayerState :=
  { resetState initialState with
    providers := [("plex1", mp1), ("plex2", mp2)]
    file := some (some "f.mkv") }

/-- Like sStarted but with only the empty-catalog provider registered. -/
def sNoMatch : PlayerState :=
  { resetState initialState with
    providers := [("plex9", mpEmpty)]
    file := some (some "f.mkv") }

/-- An active matched session whose last-state record is freshly reset
(no time and no state recorded yet). -/
def activeS0 : PlayerState :=
  { providers := [("plex1", mp1)], file := some (some "f.mkv"),
    item := some (some r0), itemId := some (some 42),
    mediaProvider := some (some mp1), duration := some (some 61500),
    playbackMonitor := some (some true), lastState := some ⟨none, none⟩ }

/-- An active matched session with a pending state and no recorded time. -/
def activeS1 : PlayerState :=
  { activeS0 with lastState := some ⟨none, some PLEX_PLAYER_PLAYING⟩ }

/-- Provider with identifier a. -/
def pa : MediaProvider := ⟨"a", []⟩

/-- Provider with identifier b. -/
def pb : MediaProvider := ⟨"b", []⟩

/-- A player that has provider a registered. -/
def sW : PlayerState := { initialState with providers := [("a", pa)] }

/-- A monitor iteration during live playback (item present, no abort). -/
def it0 : MonitorIter := ⟨false, some r0, false, some r0, 5000⟩

/-- A monitor iteration that observes the cleared item at its loop head. -/
def itStop : MonitorIter := ⟨false, none, false, none, 7⟩

/-! Helper lemmas. -/

theorem uniqueId_ne_empty_of_parse (tag : VideoInfoTag) (idNum : Nat)
    (hid : pyStrToNat? tag.uniqueIdPlex = some idNum) :
    tag.uniqueIdPlex ≠ "" := by
  intro he
  have h0 : pyStrToNat? "" = none := by decide
  rw [he, h0] at hid
  exact Option.noConfusion hid

theorem runEvents_append (s : PlayerState) (xs ys : List (HostEnv × PlayerEvent)) :
    runEvents s (xs ++ ys) = runEvents (runEvents s xs) ys := by
  induction xs generalizing s with
  | nil => simp [runEvents]
  | cons x rest ih => obtain ⟨env, e⟩ := x; simp [runEvents, ih]

theorem scanProviders_eq_none (idNum : Nat) (ps : List MediaProvider)
    (h : ∀ p ∈ ps, matchingItems idNum p = []) :
    (scanProviders idNum ps).2 = none := by
  induction ps with
  | nil => simp [scanProviders]
  | cons mp rest ih =>
    have h1 : matchingItems idNum mp = [] := h mp (by simp)
    simp only [scanProviders, h1, List.isEmpty_nil, if_true]
    exact ih (fun p hp => h p (by simp [hp]))

theorem dictLookup_dictSet_self {α : Type} (ps : List (String × α))
    (k : String) (v : α) : dictLookup (dictSet ps k v) k = some v := by
  induction ps with
  | nil => simp [dictSet, dictLookup]
  | cons p rest ih =>
    obtain ⟨k2, v2⟩ := p
    by_cases h : k2 = k <;> simp [dictSet, dictLookup, h, ih]

theorem dictLookup_dictSet_other {α : Type} (ps : List (String × α))
    (k k2 : String) (v : α) (h : k2 ≠ k) :
    dictLookup (dictSet ps k v) k2 = dictLookup ps k2 := by
  induction ps with
  | nil => simp [dictSet, dictLookup, Ne.symm h]
  | cons p rest ih =>
    obtain ⟨k3, v3⟩ := p
    by_cases h3 : k3 = k
    · subst h3
      simp [dictSet, dictLookup, Ne.symm h]
    · by_cases h32 : k3 = k2 <;> simp [dictSet, dictLookup, h3, h32, h, ih]

theorem dictLookup_eq_none_of_not_mem {α : Type} (ps : List (String × α))
    (k : String) (h : k ∉ ps.map Prod.fst) : dictLookup ps k = none := by
  induction ps with
  | nil => simp [dictLookup]
  | cons p rest ih =>
    obtain ⟨k2, v2⟩ := p
    simp only [List.map_cons, List.mem_cons, not_or] at h
    have : k2 ≠ k := fun hh => h.1 hh.symm
    simp [dictLookup, this, ih h.2]

theorem dictDel_none_of_lookup_none {α : Type} (ps : List (String × α))
    (k : String) (h : dictLookup ps k = none) : dictDel ps k = none := by
  induction ps with
  | nil => simp [dictDel]
  | cons p rest ih =>
    obtain ⟨k2, v2⟩ := p
    by_cases hk : k2 = k
    · simp [dictLookup, hk] at h
    · simp only [dictLookup, hk, if_false] at h
      simp [dictDel, hk, ih h]

theorem dictDel_of_lookup_some {α : Type} (ps : List (String × α))
    (k : String) (q : α) (h : dictLookup ps k = some q) :
    ∃ ps', dictDel ps k = some ps' ∧
      ((ps.map Prod.fst).Nodup →
        dictLookup ps' k = none ∧
        ∀ k2, k2 ≠ k → dictLookup ps' k2 = dictLookup ps k2) := by
  induction ps with
  | nil => simp [dictLookup] at h
  | cons p rest ih =>
    obtain ⟨k2, v2⟩ := p
    by_cases hk : k2 = k
    · subst hk
      refine ⟨rest, by simp [dictDel], fun hnd => ?_⟩
      simp only [List.map_cons, List.nodup_cons] at hnd
      refine ⟨dictLookup_eq_none_of_not_mem rest k2 hnd.1, fun k3 h3 => ?_⟩
      simp [dictLookup, Ne.symm h3]
    · simp only [dictLookup, hk, if_false] at h
      obtain ⟨ps', hdel, hrest⟩ := ih h
      refine ⟨(k2, v2) :: ps', by simp [dictDel, hk, hdel], fun hnd => ?_⟩
      simp only [List.map_cons, List.nodup_cons] at hnd
      obtain ⟨ha, hb⟩ := hrest hnd.2
      refine ⟨by simp [dictLookup, hk, ha], fun k3 h3 => ?_⟩
      by_cases h23 : k2 = k3 <;> simp [dictLookup, h23, hb k3 h3]

/-! Claim theorems. -/

/-- C6: after any sequence of lifecycle events that ends with the ended
event, every session field is unset (the handler runs the reset
unconditionally), and a monitor iteration that observes the cleared item at
its loop head issues no sync call at all. -/
theorem C6_ended_resets (s : PlayerState) (es : List (HostEnv × PlayerEvent))
    (env : HostEnv) (a b : Bool) (ip : Option RemoteItem) (t : Int)
    (rest : List MonitorIter) :
    sessionIdle (runEvents s (es ++ [(env, PlayerEvent.ended)])) ∧
    monitorSyncCalls (⟨a, none, b, ip, t⟩ :: rest) = [] := by
  constructor
  · rw [runEvents_append]
    simp [runEvents, handleEvent, sessionIdle, resetState]
  · simp [monitorSyncCalls]

/-- C8: AddProvider raises ValueError exactly on a null argument and
otherwise registers under the identifier, overwriting any prior entry with
that identifier and leaving other keys unchanged; RemoveProvider raises
ValueError on a null argument, raises KeyError when the identifier is not
registered, and otherwise removes the entry. -/
theorem C8_provider_registry (s : PlayerState) (p : MediaProvider) :
    AddProvider s none = Except.error PyErr.valueError ∧
    (∃ ps', AddProvider s (some p) = Except.ok { s with providers := ps' } ∧
      dictLookup ps' p.identifier = some p ∧
      ∀ k, k ≠ p.identifier → dictLookup ps' k = dictLookup s.providers k) ∧
    RemoveProvider s none = Except.error PyErr.valueError ∧
    (dictLookup s.providers p.identifier = none →
      RemoveProvider s (some p) = Except.error PyErr.keyError) ∧
    (∀ q, dictLookup s.providers p.identifier = some q →
      ∃ ps', RemoveProvider s (some p) = Except.ok { s with providers := ps' } ∧
        ((s.providers.map Prod.fst).Nodup →
          dictLookup ps' p.identifier = none ∧
          ∀ k, k ≠ p.identifier → dictLookup ps' k = dictLookup s.providers k)) := by
  refine ⟨rfl, ?_, rfl, ?_, ?_⟩
  · exact ⟨dictSet s.providers p.identifier p, rfl,
      dictLookup_dictSet_self s.providers p.identifier p,
      fun k hk => dictLookup_dictSet_other s.providers p.identifier k p hk⟩
  · intro h
    simp [RemoveProvider, dictDel_none_of_lookup_none s.providers p.identifier h]
  · intro q h
    obtain ⟨ps', hdel, hrest⟩ :=
      dictDel_of_lookup_some s.providers p.identifier q h
    exact ⟨ps', by simp [RemoveProvider, hdel], hrest⟩

/-- C8 witness: on a player with provider a registered, AddProvider and
RemoveProvider reject a null argument with ValueError, and removing the
unregistered provider b raises KeyError. -/
theorem C8_witness :
    AddProvider sW none = Except.error PyErr.valueError ∧
    RemoveProvider sW none = Except.error PyErr.valueError ∧
    RemoveProvider sW (some pb) = Except.error PyErr.keyError :=
  ⟨(C8_provider_registry sW pb).1, (C8_provider_registry sW pb).2.2.1,
   (C8_provider_registry sW pb).2.2.2.1 (by decide)⟩

/-- C9: a monitor iteration whose loop-head check observes the abort flag
or a cleared item issues no sync call and terminates the trace; likewise
when the post-wait check observes either condition; and an iteration during
which neither condition ever holds issues exactly one sync call, carrying
the current elapsed time and no state argument, and continues. -/
theorem C9_monitor_termination (it : MonitorIter) (rest : List MonitorIter) :
    ((it.abortPre = true ∨ it.itemPre = none) →
      monitorSyncCalls (it :: rest) = []) ∧
    ((it.abortPost = true ∨ it.itemPost = none) →
      monitorSyncCalls (it :: rest) = []) ∧
    (it.abortPre = false → it.itemPre.isSome = true →
      it.abortPost = false → it.itemPost.isSome = true →
      monitorSyncCalls (it :: rest) =
        (none, some it.timeMs) :: monitorSyncCalls rest) := by
  refine ⟨fun h => ?_, fun h => ?_, fun h1 h2 h3 h4 => ?_⟩
  · rcases h with h | h <;> simp [monitorSyncCalls, h]
  · by_cases hpre : it.abortPre = true ∨ it.itemPre = none
    · rcases hpre with hp | hp <;> simp [monitorSyncCalls, hp]
    · push_neg at hpre
      rcases h with h | h <;>
        simp [monitorSyncCalls, h, hpre.1, Option.isNone_iff_eq_none, hpre.2]
  · obtain ⟨x1, hx1⟩ := Option.isSome_iff_exists.mp h2
    obtain ⟨x2, hx2⟩ := Option.isSome_iff_exists.mp h4
    simp [monitorSyncCalls, h1, h3, hx1, hx2]

/-- C9 witness: a live iteration issues the single time-only sync call, and
an iteration observing the cleared item issues none. -/
theorem C9_witness :
    monitorSyncCalls [it0] = [(none, some 5000)] ∧
    monitorSyncCalls [itStop, it0] = [] := by
  constructor
  · have h := (C9_monitor_termination it0 []).2.2 rfl rfl rfl rfl
    simpa [monitorSyncCalls] using h
  · exact (C9_monitor_termination itStop [it0]).1 (Or.inr rfl)

/-- C1 (amended: the subsequent call must supply a nonzero time, since the
sync guard treats the integer 0 as absent): on a matched session whose
last-state record is freshly reset, a sync call supplying only a state
produces zero pushes, and a subsequent call supplying a nonzero time
produces exactly one push carrying that time, the pending state and the
session duration. -/
theorem C1_sync_gating_nonzero (s : PlayerState) (it : RemoteItem)
    (d : Option Int) (st : String) (t : Int)
    (hitem : s.item = some (some it)) (hls : s.lastState = some ⟨none, none⟩)
    (hdur : s.duration = some d) (hst : st ≠ "") (ht : t ≠ 0) :
    (syncPlaybackState (some st) none s).2.pushes = [] ∧
    (syncPlaybackState none (some t)
        (syncPlaybackState (some st) none s).1).2.pushes = [⟨t, st, d⟩] := by
  simp [syncPlaybackState, falsyStr, falsyInt, hitem, hls, hdur, hst, ht,
    noOut, pushOut]

/-- C1 counterexample: on a matched, freshly reset session, after the
state-only call (zero pushes), a subsequent call supplying the time 0 also
produces zero pushes, not exactly one: the guard drops a zero time. -/
theorem C1_counterexample :
    (syncPlaybackState (some PLEX_PLAYER_PLAYING) none activeS0).2.pushes = [] ∧
    (syncPlaybackState none (some 0)
        (syncPlaybackState (some PLEX_PLAYER_PLAYING) none activeS0).1).2.pushes
      = [] := by decide

/-- C1 witness: the amended claim at the concrete session activeS0 with
state playing and time 12500. -/
theorem C1_witness :
    (syncPlaybackState (some PLEX_PLAYER_PLAYING) none activeS0).2.pushes = [] ∧
    (syncPlaybackState none (some 12500)
        (syncPlaybackState (some PLEX_PLAYER_PLAYING) none activeS0).1).2.pushes
      = [⟨12500, PLEX_PLAYER_PLAYING, some 61500⟩] :=
  C1_sync_gating_nonzero activeS0 r0 (some 61500) PLEX_PLAYER_PLAYING 12500
    rfl rfl rfl (by decide) (by decide)

/-- C2: evaluating the code at the failing input. On an A/V-start for a
playing video whose Plex unique id is the non-numeric string abc, the
matching procedure does not log and return: it raises UnboundLocalError
(the error-log call formats matchingItems[0], a local variable that is only
assigned later), leaving the session untouched, with no log entry and no
push. -/
theorem C2_nondigit_id_raises :
    (handleEvent envBad PlayerEvent.avStarted sStarted).1 = sStarted ∧
    (handleEvent envBad PlayerEvent.avStarted sStarted).2 =
      errOut PyErr.unboundLocal := by decide

/-- C4: when the playing video carries a numeric Plex id but no registered
provider catalog has a matching item, the A/V-start event leaves the
session fully unset (the no-match branch resets it), starts no monitor,
pushes nothing and raises nothing. -/
theorem C4_no_match_idle (env : HostEnv) (s : PlayerState) (f : String)
    (tag : VideoInfoTag) (idNum : Nat)
    (hfile : s.file = some (some f)) (hf : f ≠ "")
    (hvid : env.isPlayingVideo = true)
    (htag : env.videoInfoTag = some tag)
    (hid : pyStrToNat? tag.uniqueIdPlex = some idNum)
    (hmp : s.mediaProvider = some none)
    (hnm : ∀ p ∈ s.providers, matchingItems idNum p.2 = []) :
    sessionIdle (handleEvent env PlayerEvent.avStarted s).1 ∧
    (handleEvent env PlayerEvent.avStarted s).2.pushes = [] ∧
    (handleEvent env PlayerEvent.avStarted s).2.monitorStarted = false ∧
    (handleEvent env PlayerEvent.avStarted s).2.err = none := by
  have hne : tag.uniqueIdPlex ≠ "" := uniqueId_ne_empty_of_parse tag idNum hid
  have hscan : (scanProviders idNum (s.providers.map Prod.snd)).2 = none := by
    apply scanProviders_eq_none
    intro p hp
    obtain ⟨pr, hpr, rfl⟩ := List.mem_map.mp hp
    exact hnm pr hpr
  simp [handleEvent, onAVStarted, startPlayback, syncPlaybackState, hfile, hf,
    hvid, htag, hne, hid, hmp, hscan, falsyStr, falsyInt, resetState,
    sessionIdle, combineOut, noOut]

/-- C4 witness: the no-match conclusion at a concrete player whose only
registered provider has an empty catalog. -/
theorem C4_witness :
    sessionIdle (handleEvent envA PlayerEvent.avStarted sNoMatch).1 ∧
    (handleEvent envA PlayerEvent.avStarted sNoMatch).2.pushes = [] ∧
    (handleEvent envA PlayerEvent.avStarted sNoMatch).2.monitorStarted = false ∧
    (handleEvent envA PlayerEvent.avStarted sNoMatch).2.err = none :=
  C4_no_match_idle envA sNoMatch "f.mkv" tag42 42 rfl (by decide) rfl rfl
    (by decide) rfl (by decide)

/-- C3: with providers p1 then p2 registered in that order and both
catalogs containing an item whose Plex unique id is the string form of the
playing id, the matching procedure fetches only the catalog of p1, selects p1,
and performs the remote-item resolution only for p1, never for p2. -/
theorem C3_first_match_wins (env : HostEnv) (s : PlayerState) (f : String)
    (tag : VideoInfoTag) (idNum : Nat) (k1 k2 : String)
    (p1 p2 : MediaProvider)
    (hfile : s.file = some (some f)) (hf : f ≠ "")
    (hvid : env.isPlayingVideo = true) (htag : env.videoInfoTag = some tag)
    (hid : pyStrToNat? tag.uniqueIdPlex = some idNum)
    (hprov : s.providers = [(k1, p1), (k2, p2)])
    (hm1 : matchingItems idNum p1 ≠ [])
    (hm2 : matchingItems idNum p2 ≠ [])
    (hmon : s.playbackMonitor = some none)
    (hne12 : p2.identifier ≠ p1.identifier) :
    (startPlayback env s).1.mediaProvider = some (some p1) ∧
    (startPlayback env s).2.catalogQueries = [p1.identifier] ∧
    (startPlayback env s).2.resolutions = [p1.identifier] ∧
    p2.identifier ∉ (startPlayback env s).2.catalogQueries ∧
    p2.identifier ∉ (startPlayback env s).2.resolutions := by
  have hne : tag.uniqueIdPlex ≠ "" := uniqueId_ne_empty_of_parse tag idNum hid
  obtain ⟨c, cs, hcs⟩ := List.exists_cons_of_ne_nil hm1
  have hscan : scanProviders idNum [p1, p2] =
      ([p1.identifier], some (p1, (matchingItems idNum p1).length)) := by
    simp [scanProviders, hcs]
  simp [startPlayback, hfile, hf, hvid, htag, hne, hid, hprov, hscan, hmon,
    falsyStr, hne12]

/-- C3 witness: the first-match conclusion at a concrete player with
providers plex1 and plex2 both holding a catalog item for id 42. -/
theorem C3_witness :
    (startPlayback envA sTwo).1.mediaProvider = some (some mp1) ∧
    (startPlayback envA sTwo).2.catalogQueries = [mp1.identifier] ∧
    (startPlayback envA sTwo).2.resolutions = [mp1.identifier] ∧
    mp2.identifier ∉ (startPlayback envA sTwo).2.catalogQueries ∧
    mp2.identifier ∉ (startPlayback envA sTwo).2.resolutions :=
  C3_first_match_wins envA sTwo "f.mkv" tag42 42 "plex1" "plex2" mp1 mp2
    rfl (by decide) rfl rfl (by decide) rfl (by decide) (by decide) rfl
    (by decide)

/-- C7: when a playback starts on a video whose Plex unique id matches the
single catalog item of the single registered provider, the A/V-started
event produces exactly one push, carrying time 0, state PLAYING, and the
total duration converted to integer milliseconds, and raises nothing. -/
theorem C7_avstarted_single_push (env : HostEnv) (s : PlayerState)
    (f : String) (tag : VideoInfoTag) (idNum : Nat) (k : String)
    (mp : MediaProvider) (cit : ImportedItem) (ls0 : LastState)
    (hfile : s.file = some (some f)) (hf : f ≠ "")
    (hvid : env.isPlayingVideo = true) (htag : env.videoInfoTag = some tag)
    (hid : pyStrToNat? tag.uniqueIdPlex = some idNum)
    (hprov : s.providers = [(k, mp)])
    (hcat : matchingItems idNum mp = [cit])
    (hmon : s.playbackMonitor = some none)
    (hls : s.lastState = some ls0) :
    (handleEvent env PlayerEvent.avStarted s).2.pushes =
      [⟨0, PLEX_PLAYER_PLAYING, some (pyScaleMs env.totalTimeSec)⟩] ∧
    (handleEvent env PlayerEvent.avStarted s).2.err = none := by
  have hne : tag.uniqueIdPlex ≠ "" := uniqueId_ne_empty_of_parse tag idNum hid
  have hscan : scanProviders idNum [mp] = ([mp.identifier], some (mp, 1)) := by
    simp [scanProviders, hcat]
  have hpl : falsyStr (some PLEX_PLAYER_PLAYING) = false := by decide
  have hpl2 : PLEX_PLAYER_PLAYING ≠ "" := by decide
  simp [handleEvent, onAVStarted, startPlayback, syncPlaybackState,
    combineOut, pushOut, hfile, hf, hvid, htag, hne, hid, hprov, hscan,
    hmon, hls, hpl, hpl2, falsyStr, falsyInt]

/-- C7 witness: the single-push conclusion at the concrete scenario of
provider plex1, catalog item 42, playing id 42, total time 61.5 seconds. -/
theorem C7_witness :
    (handleEvent envA PlayerEvent.avStarted sStarted).2.pushes =
      [⟨0, PLEX_PLAYER_PLAYING, some (pyScaleMs envA.totalTimeSec)⟩] ∧
    (handleEvent envA PlayerEvent.avStarted sStarted).2.err = none :=
  C7_avstarted_single_push envA sStarted "f.mkv" tag42 42 "plex1" mp1
    catItem42 ⟨none, none⟩ rfl (by decide) rfl rfl (by decide) rfl
    (by decide) rfl rfl

/-- C5: evaluating the code at the failing input. On a matched session with
a pending state, a sync call supplying only the time 0 (a seek to position
zero) is a complete no-op: the guard treats 0 as absent, so nothing is
recorded and nothing is pushed, even though the later store is guarded by a
time-is-not-None test; supplying the time 1 instead records it and pushes. -/
theorem C5_time_zero_noop :
    syncPlaybackState none (some 0) activeS1 = (activeS1, noOut) ∧
    (syncPlaybackState none (some 1) activeS1).2.pushes =
      [⟨1, PLEX_PLAYER_PLAYING, some 61500⟩] := by decide

/-- C10 (amended: the ended handler performs the reset without raising, and
the seek handlers raise only when the current elapsed time is nonzero): the
constructor initializes only the provider map (plus monitor and lock),
never the session fields; on a freshly constructed reporter the
A/V-started, pause, resume and stop handlers access an unset attribute and
raise AttributeError; the seek handler raises AttributeError exactly when
the current elapsed time is nonzero and is a silent no-op at elapsed time
zero; the end handler does not raise, it performs the reset assignments. -/
theorem C10_fresh_reporter (env : HostEnv) :
    initialState.file = none ∧ initialState.item = none ∧
    initialState.itemId = none ∧ initialState.mediaProvider = none ∧
    initialState.duration = none ∧ initialState.playbackMonitor = none ∧
    initialState.lastState = none ∧
    (handleEvent env PlayerEvent.avStarted initialState).2.err =
      some PyErr.attributeError ∧
    (handleEvent env PlayerEvent.paused initialState).2.err =
      some PyErr.attributeError ∧
    (handleEvent env PlayerEvent.resumed initialState).2.err =
      some PyErr.attributeError ∧
    (handleEvent env PlayerEvent.stopped initialState).2.err =
      some PyErr.attributeError ∧
    (playingTimeMs env ≠ 0 →
      (handleEvent env PlayerEvent.seek initialState).2.err =
        some PyErr.attributeError) ∧
    (playingTimeMs env = 0 →
      handleEvent env PlayerEvent.seek initialState = (initialState, noOut)) ∧
    handleEvent env PlayerEvent.ended initialState =
      (resetState initialState, noOut) := by
  have hpau : falsyStr (some PLEX_PLAYER_PAUSED) = false := by decide
  have hply : falsyStr (some PLEX_PLAYER_PLAYING) = false := by decide
  have hstp : falsyStr (some PLEX_PLAYER_STOPPED) = false := by decide
  refine ⟨rfl, rfl, rfl, rfl, rfl, rfl, rfl, ?_, ?_, ?_, ?_, ?_, ?_, rfl⟩
  · simp [handleEvent, onAVStarted, startPlayback, initialState, errOut]
  · simp [handleEvent, syncPlaybackState, initialState, hpau, errOut]
  · simp [handleEvent, syncPlaybackState, initialState, hply, errOut]
  · simp [handleEvent, onPlayBackStopped, syncPlaybackState, initialState,
      hstp, errOut]
  · intro h
    simp [handleEvent, syncPlaybackState, initialState, falsyStr, falsyInt,
      h, errOut]
  · intro h
    simp [handleEvent, syncPlaybackState, falsyStr, falsyInt, h]

/-- C10 counterexample: on a freshly constructed reporter, neither the
ended handler nor a seek at elapsed time zero raises any error, refuting
the claim that every non-start lifecycle handler raises AttributeError. -/
theorem C10_counterexample :
    (handleEvent env0 PlayerEvent.ended initialState).2.err = none ∧
    (handleEvent env0 PlayerEvent.seek initialState).2.err = none := by decide

/-- C10 witness: the amended claim instantiated at elapsed time zero (seek
is a no-op) and at elapsed time one second (seek raises AttributeError),
together with the A/V-started case. -/
theorem C10_witness :
    handleEvent env0 PlayerEvent.seek initialState = (initialState, noOut) ∧
    (handleEvent env1 PlayerEvent.seek initialState).2.err =
      some PyErr.attributeError ∧
    (handleEvent env0 PlayerEvent.avStarted initialState).2.err =
      some PyErr.attributeError := by
  have h0 := C10_fresh_reporter env0
  have h1 := C10_fresh_reporter env1
  obtain ⟨-, -, -, -, -, -, -, hav, -, -, -, -, hz, -⟩ := h0
  obtain ⟨-, -, -, -, -, -, -, -, -, -, -, hnz, -, -⟩ := h1
  exact ⟨hz (by decide), hnz (by decide), hav⟩

end PlexPlayer
